import Mathlib

/-!
# Shallow embedding of the KYC automation agent

This file embeds the decision core of the `kyc-automate-agent` repository
(`src/kyc_agent.py` and `src/utils.py`) in Lean 4 and proves properties of it.

The embedded parts are:
* `parse_kyc_details` (kyc_agent.py, lines 86-193): regex-driven field
  extraction from OCR text.  Each Python regular expression is transcribed as
  a backtracking matcher over `List Char` built from a small set of
  combinators (literal, greedy/lazy star, bounded repetition, capture).
* `calculate_fraud_score` (lines 287-345): fraud score, risk level and
  indicator list.  `datetime.now().year` is passed in as the explicit
  parameter `currentYear`.
* the exception branch of `verify_faces` (lines 281-285).
* the status-derivation step of `process_kyc` (lines 377-384).
* `determine_overall_status` (utils.py, lines 189-215).

Strings are modelled as `List Char` where character-level work is needed.
Python's `str.strip`/`str.split`/`str.upper`/`str.lower` are modelled at the
ASCII level (all inputs relevant to the source's patterns are ASCII).
-/

namespace KYC

/-- Python whitespace (`str.isspace` / regex `\s`), ASCII part:
space, tab, newline, carriage return, vertical tab, form feed. -/
def isPySpace (c : Char) : Bool :=
  c = ' ' || c = '\t' || c = '\n' || c = '\x0d' || c = '\x0b' || c = '\x0c'

/-- Python `str.upper`, per character (ASCII). -/
def pyUpper (c : Char) : Char := c.toUpper

/-- Python `str.lower`, per character (ASCII). -/
def pyLower (c : Char) : Char := c.toLower

/-- Python `str.strip()`: drop leading and trailing whitespace. -/
def pyStripL (l : List Char) : List Char :=
  ((l.dropWhile isPySpace).reverse.dropWhile isPySpace).reverse

/-- `preL pat l` tests whether `pat` is an initial segment of `l`. -/
def preL : List Char → List Char → Bool
  | [], _ => true
  | _ :: _, [] => false
  | c :: cs, d :: ds => c = d && preL cs ds

/-- Python's substring test `pat in hay`. -/
def hasSubL : List Char → List Char → Bool
  | [], pat => preL pat []
  | c :: rest, pat => preL pat (c :: rest) || hasSubL rest pat

/-- Python `str.split()` (split on whitespace runs, no empty words):
worker carrying the current word reversed. -/
def wordsByAux (cur : List Char) : List Char → List (List Char)
  | [] => if cur.isEmpty then [] else [cur.reverse]
  | c :: rest =>
    if isPySpace c then
      if cur.isEmpty then wordsByAux [] rest
      else cur.reverse :: wordsByAux [] rest
    else wordsByAux (c :: cur) rest

/-- Python `str.split()`. -/
def wordsBy (l : List Char) : List (List Char) := wordsByAux [] l

/-- Python `' '.join(words)`. -/
def joinWords : List (List Char) → List Char
  | [] => []
  | [w] => w
  | w :: v :: ws => w ++ ' ' :: joinWords (v :: ws)

/-! ## Regex building blocks

Each combinator matches one syntactic piece of a Python regular expression at
the head of the input and passes the remaining input to a continuation `k`;
`<|>` on `Option` realises backtracking (first success wins), reproducing the
leftmost / greedy / lazy preference order of Python's `re.search`.
Capturing combinators additionally thread the captured characters in reverse
order (`acc`); the final continuation reverses once. -/

/-- Match a literal character sequence. -/
def lit : List Char → List Char → (List Char → Option α) → Option α
  | [], s, k => k s
  | _ :: _, [], _ => none
  | c :: cs, d :: ds, k => if c = d then lit cs ds k else none

/-- Greedy `p*`: consume as many `p`-characters as possible, backtracking. -/
def starG (p : Char → Bool) : List Char → (List Char → Option α) → Option α
  | [], k => k []
  | c :: rest, k =>
    if p c then starG p rest k <|> k (c :: rest) else k (c :: rest)

/-- Greedy `p+`. -/
def plusG (p : Char → Bool) : List Char → (List Char → Option α) → Option α
  | [], _ => none
  | c :: rest, k => if p c then starG p rest k else none

/-- Greedy `p?`. -/
def optG (p : Char → Bool) : List Char → (List Char → Option α) → Option α
  | [], k => k []
  | c :: rest, k => if p c then k rest <|> k (c :: rest) else k (c :: rest)

/-- Lazy `p*?`: prefer consuming as little as possible. -/
def starL (p : Char → Bool) : List Char → (List Char → Option α) → Option α
  | [], k => k []
  | c :: rest, k =>
    k (c :: rest) <|> (if p c then starL p rest k else none)

/-- Single non-captured class character. -/
def one (p : Char → Bool) : List Char → (List Char → Option α) → Option α
  | [], _ => none
  | c :: rest, k => if p c then k rest else none

/-- Greedy capturing `(p*)` continuing a capture `acc` (reversed). -/
def capStarG (p : Char → Bool) (acc : List Char) :
    List Char → (List Char → List Char → Option α) → Option α
  | [], k => k acc []
  | c :: rest, k =>
    if p c then capStarG p (c :: acc) rest k <|> k acc (c :: rest)
    else k acc (c :: rest)

/-- Greedy capturing `(p+)`. -/
def capPlusG (p : Char → Bool) (acc : List Char) :
    List Char → (List Char → List Char → Option α) → Option α
  | [], _ => none
  | c :: rest, k => if p c then capStarG p (c :: acc) rest k else none

/-- Lazy capturing `(p*?)`. -/
def capStarL (p : Char → Bool) (acc : List Char) :
    List Char → (List Char → List Char → Option α) → Option α
  | [], k => k acc []
  | c :: rest, k =>
    k acc (c :: rest) <|> (if p c then capStarL p (c :: acc) rest k else none)

/-- Lazy capturing `(p+?)`. -/
def capPlusL (p : Char → Bool) (acc : List Char) :
    List Char → (List Char → List Char → Option α) → Option α
  | [], _ => none
  | c :: rest, k => if p c then capStarL p (c :: acc) rest k else none

/-- Capturing bounded repetition `(p{n,n+m})`: exactly `n` mandatory
characters followed by up to `m` optional ones, greedily. -/
def capRange (p : Char → Bool) :
    Nat → Nat → List Char → List Char → (List Char → List Char → Option α) → Option α
  | _ + 1, _, _, [], _ => none
  | n + 1, m, acc, c :: rest, k =>
    if p c then capRange p n m (c :: acc) rest k else none
  | 0, 0, acc, s, k => k acc s
  | 0, _ + 1, acc, [], k => k acc []
  | 0, m + 1, acc, c :: rest, k =>
    if p c then capRange p 0 m (c :: acc) rest k <|> k acc (c :: rest)
    else k acc (c :: rest)

/-- Single captured class character. -/
def capOne (p : Char → Bool) (acc : List Char) :
    List Char → (List Char → List Char → Option α) → Option α
  | [], _ => none
  | c :: rest, k => if p c then k (c :: acc) rest else none

/-- `re.search`: try the matcher at every start position, leftmost first. -/
def searchFrom (m : List Char → Option α) : List Char → Option α
  | [] => m []
  | c :: rest => m (c :: rest) <|> searchFrom m rest

/-- `re.search` for patterns needing the previous character (`\b`). -/
def searchPrev (m : Option Char → List Char → Option α) :
    Option Char → List Char → Option α
  | prev, [] => m prev []
  | prev, c :: rest => m prev (c :: rest) <|> searchPrev m (some c) rest

/-! ## Character classes of the source's patterns -/

/-- `[A-Za-z]`, also `[A-Z]` under `re.IGNORECASE`. -/
def isAlphaC (c : Char) : Bool := c.isAlpha

/-- `[A-Z\s]` under `re.IGNORECASE`. -/
def isAZWs (c : Char) : Bool := c.isAlpha || isPySpace c

/-- `[A-Z\s,]` under `re.IGNORECASE`. -/
def isAZWsComma (c : Char) : Bool := c.isAlpha || isPySpace c || c = ','

/-- `[\d-]`. -/
def isDigitDash (c : Char) : Bool := c.isDigit || c = '-'

/-- dash or slash: `[/\-]`. -/
def isSepSlashDash (c : Char) : Bool := c = '-' || c = '/'

/-- `[-.]`. -/
def isSepDashDot (c : Char) : Bool := c = '-' || c = '.'

/-- `[:\.]`. -/
def isColonDot (c : Char) : Bool := c = ':' || c = '.'

/-- `[:\.\s]`. -/
def isColonDotWs (c : Char) : Bool := c = ':' || c = '.' || isPySpace c

/-- Python `\w` (ASCII): letters, digits, underscore. -/
def isWordChar (c : Char) : Bool := c.isAlphanum || c = '_'

/-- `\b` before a digit: the previous character, if any, is a non-word
character (the following character is a digit, hence a word character). -/
def bdryBefore : Option Char → Bool
  | none => true
  | some p => !isWordChar p

/-! ## The source's regular expressions as matchers

Each `...At` function matches the pattern anchored at the current position;
the corresponding search is `searchFrom`/`searchPrev` over it.  The source
applies the name/document/date-of-birth/address patterns with
`re.IGNORECASE` to the already upper-cased text, so literal letters are kept
upper case and letter classes accept both cases. -/

/-- `FULL\s+NAME\s*\n\s*([A-Z\s]+?)\s*(\n|$)` (group 2 is unused). -/
def name1At (s : List Char) : Option (List Char) :=
  lit "FULL".data s fun s =>
  plusG isPySpace s fun s =>
  lit "NAME".data s fun s =>
  starG isPySpace s fun s =>
  lit ['\n'] s fun s =>
  starG isPySpace s fun s =>
  capPlusL isAZWs [] s fun g s =>
  starG isPySpace s fun s =>
  ((lit ['\n'] s fun _ => some g.reverse) <|>
    (if s.isEmpty then some g.reverse else none))

/-- `LBL\s*[:\.]?\s*\n?\s*([A-Z\s]{3,50})` with `LBL` ∈ {NAME, NAAM}. -/
def nameLblAt (lbl : List Char) (s : List Char) : Option (List Char) :=
  lit lbl s fun s =>
  starG isPySpace s fun s =>
  optG isColonDot s fun s =>
  starG isPySpace s fun s =>
  optG (· = '\n') s fun s =>
  starG isPySpace s fun s =>
  capRange isAZWs 3 47 [] s fun g _ => some g.reverse

/-- `CERTIFICATE\s+NO\.?\s*[:\.\s]*\n?([\d-]+)`. -/
def doc1At (s : List Char) : Option (List Char) :=
  lit "CERTIFICATE".data s fun s =>
  plusG isPySpace s fun s =>
  lit "NO".data s fun s =>
  optG (· = '.') s fun s =>
  starG isPySpace s fun s =>
  starG isColonDotWs s fun s =>
  optG (· = '\n') s fun s =>
  capPlusG isDigitDash [] s fun g _ => some g.reverse

/-- `LBL\s+NO\.?\s*[:\.]?\s*([\d-]+)` with `LBL` ∈ {CITIZENSHIP, ID}. -/
def docLblAt (lbl : List Char) (s : List Char) : Option (List Char) :=
  lit lbl s fun s =>
  plusG isPySpace s fun s =>
  lit "NO".data s fun s =>
  optG (· = '.') s fun s =>
  starG isPySpace s fun s =>
  optG isColonDot s fun s =>
  starG isPySpace s fun s =>
  capPlusG isDigitDash [] s fun g _ => some g.reverse

/-- `\b(\d{2,3}[/\-]\d{2,3}[/\-]\d{2,3}[/\-]\d{2,5})\b`. -/
def doc4At (prev : Option Char) (s : List Char) : Option (List Char) :=
  if bdryBefore prev then
    capRange Char.isDigit 2 1 [] s fun g s =>
    capOne isSepSlashDash g s fun g s =>
    capRange Char.isDigit 2 1 g s fun g s =>
    capOne isSepSlashDash g s fun g s =>
    capRange Char.isDigit 2 1 g s fun g s =>
    capOne isSepSlashDash g s fun g s =>
    capRange Char.isDigit 2 3 g s fun g s =>
    (match s with
     | [] => some g.reverse
     | c :: _ => if !isWordChar c then some g.reverse else none)
  else none

/-- `YEAR\s*:\s*(\d{4})\s*MONTH\s*:\s*([A-Z]{3})\s*DAY\s*\.?\s*(\d{1,2})`.
Note the separator after `DAY` is an optional period, not a colon. -/
def dobAt (s : List Char) : Option (List Char × List Char × List Char) :=
  lit "YEAR".data s fun s =>
  starG isPySpace s fun s =>
  lit [':'] s fun s =>
  starG isPySpace s fun s =>
  capRange Char.isDigit 4 0 [] s fun y s =>
  starG isPySpace s fun s =>
  lit "MONTH".data s fun s =>
  starG isPySpace s fun s =>
  lit [':'] s fun s =>
  starG isPySpace s fun s =>
  capRange isAlphaC 3 0 [] s fun m s =>
  starG isPySpace s fun s =>
  lit "DAY".data s fun s =>
  starG isPySpace s fun s =>
  optG (· = '.') s fun s =>
  starG isPySpace s fun d2 =>
  capRange Char.isDigit 1 1 [] d2 fun d _ =>
    some (y.reverse, m.reverse, d.reverse)

/-- `\b(\d{n1})[/\-](\d{n2})[/\-](\d{n3})\b` (the two fallback date patterns,
with (n1,n2,n3) = (4,2,2) and (2,2,4)). -/
def dobNumAt (n1 n2 n3 : Nat) (prev : Option Char) (s : List Char) :
    Option (List Char × List Char × List Char) :=
  if bdryBefore prev then
    capRange Char.isDigit n1 0 [] s fun a s =>
    one isSepSlashDash s fun s =>
    capRange Char.isDigit n2 0 [] s fun b s =>
    one isSepSlashDash s fun s =>
    capRange Char.isDigit n3 0 [] s fun c s =>
    (match s with
     | [] => some (a.reverse, b.reverse, c.reverse)
     | d :: _ =>
       if !isWordChar d then some (a.reverse, b.reverse, c.reverse) else none)
  else none

/-- `L1\s+L2\s*[:\.]?\s*(\d{4}[/\-]\d{2}[/\-]\d{2})` with
(L1,L2) ∈ {(ISSUE, DATE), (ISSUED, ON)}. -/
def issueLblAt (l1 l2 : List Char) (s : List Char) : Option (List Char) :=
  lit l1 s fun s =>
  plusG isPySpace s fun s =>
  lit l2 s fun s =>
  starG isPySpace s fun s =>
  optG isColonDot s fun s =>
  starG isPySpace s fun s =>
  capRange Char.isDigit 4 0 [] s fun g s =>
  capOne isSepSlashDash g s fun g s =>
  capRange Char.isDigit 2 0 g s fun g s =>
  capOne isSepSlashDash g s fun g s =>
  capRange Char.isDigit 2 0 g s fun g _ => some g.reverse

/-- `(\d{4}[-.]\d{2}[-.]\d{2})`. -/
def issue3At (s : List Char) : Option (List Char) :=
  capRange Char.isDigit 4 0 [] s fun g s =>
  capOne isSepDashDot g s fun g s =>
  capRange Char.isDigit 2 0 g s fun g s =>
  capOne isSepDashDot g s fun g s =>
  capRange Char.isDigit 2 0 g s fun g _ => some g.reverse

/-- `PERMANENT\s+ADDRESS[\s\S]*?DISTRICT\s*:\s*([A-Za-z]+)`. -/
def addr1At (s : List Char) : Option (List Char) :=
  lit "PERMANENT".data s fun s =>
  plusG isPySpace s fun s =>
  lit "ADDRESS".data s fun s =>
  starL (fun _ => true) s fun s =>
  lit "DISTRICT".data s fun s =>
  starG isPySpace s fun s =>
  lit [':'] s fun s =>
  starG isPySpace s fun s =>
  capPlusG isAlphaC [] s fun g _ => some g.reverse

/-- `DISTRICT\s*:\s*([A-Za-z]+)`. -/
def addr2At (s : List Char) : Option (List Char) :=
  lit "DISTRICT".data s fun s =>
  starG isPySpace s fun s =>
  lit [':'] s fun s =>
  starG isPySpace s fun s =>
  capPlusG isAlphaC [] s fun g _ => some g.reverse

/-- `ADDRESS\s*[:\.]?\s*([A-Z\s,]+)`. -/
def addr3At (s : List Char) : Option (List Char) :=
  lit "ADDRESS".data s fun s =>
  starG isPySpace s fun s =>
  optG isColonDot s fun s =>
  starG isPySpace s fun s =>
  capPlusG isAZWsComma [] s fun g _ => some g.reverse

/-! ## `parse_kyc_details` -/

/-- The dictionary returned by `parse_kyc_details`
(kyc_agent.py, lines 97-104), as a record with its six keys. -/
structure KYCDetails where
  name : String
  documentNumber : String
  dateOfBirth : String
  issueDate : String
  address : String
  nationality : String
deriving DecidableEq, Repr

/-- The missing-data sentinel `"Not found"`. -/
def notFound : String := "Not found"

/-- The initial dictionary value (all sentinel, nationality `"NEPALESE"`). -/
def defaultDetails : KYCDetails :=
  ⟨notFound, notFound, notFound, notFound, notFound, "NEPALESE"⟩

/-- The noise words dropped from candidate names (line 124). -/
def noiseWords : List (List Char) :=
  ["DATE".data, "YEAR".data, "MONTH".data, "DAY".data, "OF".data, "BIRTH".data]

/-- Lines 121-125: strip the captured group, split into words, keep words of
length greater than 1 that are not noise words. -/
def nameWordsOf (g : List Char) : List (List Char) :=
  (wordsBy (pyStripL g)).filter fun w => w.length > 1 && !noiseWords.contains w

/-- One iteration of the name-pattern loop (lines 118-128): on a match,
accept only if at least two words survive the filter, else fall through to
the next pattern. -/
def nameTry (res : Option (List Char)) (next : Unit → Option (List Char)) :
    Option (List Char) :=
  match res with
  | some g =>
    let ws := nameWordsOf g
    if ws.length ≥ 2 then some (joinWords ws) else next ()
  | none => next ()

/-- The name-extraction loop over the three name patterns. -/
def nameField (tu : List Char) : Option (List Char) :=
  nameTry (searchFrom name1At tu) fun _ =>
  nameTry (searchFrom (nameLblAt "NAME".data) tu) fun _ =>
  nameTry (searchFrom (nameLblAt "NAAM".data) tu) fun _ => none

/-- The document-number loop over the four patterns (lines 138-142),
first match wins. -/
def docField (tu : List Char) : Option (List Char) :=
  searchFrom doc1At tu <|>
  searchFrom (docLblAt "CITIZENSHIP".data) tu <|>
  searchFrom (docLblAt "ID".data) tu <|>
  searchPrev doc4At none tu

/-- The issue-date loop over the three patterns (lines 169-173). -/
def issueField (tu : List Char) : Option (List Char) :=
  searchFrom (issueLblAt "ISSUE".data "DATE".data) tu <|>
  searchFrom (issueLblAt "ISSUED".data "ON".data) tu <|>
  searchFrom issue3At tu

/-- The address loop over the three patterns (lines 182-187). -/
def addrField (tu : List Char) : Option (List Char) :=
  searchFrom addr1At tu <|>
  searchFrom addr2At tu <|>
  searchFrom addr3At tu

/-- `KYCAgent.parse_kyc_details` (kyc_agent.py, lines 86-193). -/
def parse_kyc_details (text : String) : KYCDetails :=
  if text = "" || (pyStripL text.data).length < 10 then defaultDetails
  else
    let tu := text.data.map pyUpper
    let nameV :=
      match nameField tu with
      | some w => String.mk w
      | none => notFound
    let docV :=
      match docField tu with
      | some g => String.mk (pyStripL g)
      | none => notFound
    let dobV :=
      match searchFrom dobAt tu with
      | some (y, m, d) => String.mk (y ++ '-' :: m ++ '-' :: d)
      | none =>
        match searchPrev (dobNumAt 4 2 2) none text.data with
        | some (a, b, c) => String.mk (a ++ '-' :: b ++ '-' :: c)
        | none =>
          match searchPrev (dobNumAt 2 2 4) none text.data with
          | some (a, b, c) => String.mk (a ++ '-' :: b ++ '-' :: c)
          | none => notFound
    let issueV :=
      match issueField tu with
      | some g => String.mk (pyStripL g)
      | none => notFound
    let addrV :=
      match addrField tu with
      | some g => String.mk ("District: ".data ++ pyStripL g)
      | none => notFound
    let natV :=
      if hasSubL tu "NEPAL".data || hasSubL tu "CITIZENSHIP".data
      then "NEPALESE" else "NEPALESE"
    ⟨nameV, docV, dobV, issueV, addrV, natV⟩

/-! ## `calculate_fraud_score` -/

/-- `parsed_details.items()`: the six key/value pairs in the dictionary's
insertion order (lines 97-104). -/
def detailsPairs (d : KYCDetails) : List (String × String) :=
  [("Name", d.name), ("Document Number", d.documentNumber),
   ("Date Of Birth", d.dateOfBirth), ("Issue Date", d.issueDate),
   ("Address", d.address), ("Nationality", d.nationality)]

/-- `re.search(r'(\d{4})', s)` (line 320): the first four consecutive digit
characters of `s`, if any. -/
def find4Digits : List Char → Option (List Char)
  | a :: b :: c :: d :: rest =>
    if a.isDigit && b.isDigit && c.isDigit && d.isDigit then some [a, b, c, d]
    else find4Digits (b :: c :: d :: rest)
  | _ => none

/-- Python `int` on a digit string. -/
def digitsToNat (l : List Char) : Nat :=
  l.foldl (fun n c => n * 10 + (c.toNat - '0'.toNat)) 0

/-- The `risk_level` string for a high score (line 339; the source literal
contains a mojibake-encoded emoji). -/
def riskHigh : String := "üî¥ High"

/-- The `risk_level` string for a medium score (line 341). -/
def riskMedium : String := "üü° Medium"

/-- The `risk_level` string for a low score (line 343). -/
def riskLow : String := "üü¢ Low"

/-- `KYCAgent.calculate_fraud_score` (kyc_agent.py, lines 287-345).
`datetime.now().year` enters as the parameter `currentYear`; `age` is an
`Int`, as Python's subtraction can go negative.  Returns
`(fraud_score, risk_level, indicators)`. -/
def calculate_fraud_score (parsed_details : KYCDetails)
    (face_match_status : Bool) (currentYear : Int) :
    Nat × String × List String :=
  let missing_fields :=
    ((detailsPairs parsed_details).filter fun kv => kv.2 = notFound).map
      fun kv => kv.1
  let (score1, ind1) :=
    if missing_fields ≠ [] then
      (missing_fields.length * 15,
       [("Could not extract: " ++ String.intercalate ", " missing_fields)])
    else (0, [])
  let (score2, ind2) :=
    if !face_match_status then
      (score1 + 40, ind1 ++ ["Face verification failed or faces did not match."])
    else (score1, ind1)
  let (score3, ind3) :=
    if parsed_details.dateOfBirth ≠ notFound then
      match find4Digits parsed_details.dateOfBirth.data with
      | some yearDigits =>
        let year : Int := (digitsToNat yearDigits : Int)
        let age : Int := currentYear - year
        if age < 18 then
          (score2 + 30,
           ind2 ++ [("Person appears to be under 18 (age: " ++ toString age ++ ")")])
        else if age > 120 then
          (score2 + 40, ind2 ++ [("Invalid age calculated: " ++ toString age)])
        else (score2, ind2)
      | none => (score2, ind2)
    else (score2, ind2)
  let score := min score3 100
  let risk_level :=
    if score ≥ 60 then riskHigh
    else if score ≥ 30 then riskMedium
    else riskLow
  (score, risk_level, ind3)

/-! ## `verify_faces` (exception branch) and `process_kyc` status -/

/-- The `except Exception` handler of `KYCAgent.verify_faces`
(kyc_agent.py, lines 281-285), as a function of the exception text `e`:
returns the `(message, is_match)` pair the method returns when face
verification raises. -/
def verify_faces_exc (e : String) : String × Bool :=
  let error_message := String.mk (e.data.map pyLower)
  if hasSubL error_message.data "cuda".data ||
     hasSubL error_message.data "dlib".data then
    ("Face comparison error: Could not initialize processing library. Please check environment.",
     false)
  else
    ("CRITICAL ERROR during face verification: " ++ e, false)

/-- `"Not found" in parsed_details.values()` (line 380). -/
def hasNotFoundValue (d : KYCDetails) : Bool :=
  (detailsPairs d).any fun kv => kv.2 == notFound

/-- Step 5 of `KYCAgent.process_kyc` (kyc_agent.py, lines 377-384): derive
the overall status from the parsed details, the face-verification message
and the face-match flag. -/
def process_kyc_status (parsed_details : KYCDetails) (face_message : String)
    (faces_match : Bool) : String :=
  let status := "VERIFIED"
  let status :=
    if hasNotFoundValue parsed_details || !faces_match then
      "MANUAL REVIEW REQUIRED"
    else status
  if hasSubL face_message.data "CRITICAL ERROR".data then "PROCESSING ERROR"
  else status

/-! ## `determine_overall_status` (utils.py) -/

/-- `determine_overall_status` (utils.py, lines 189-215).  The
`face_verification.get('match', False)` and
`fraud_detection.get('fraud_score', 0)` dictionary reads enter as the
explicit parameters `faceMatch` and `fraud_score`. -/
def determine_overall_status (parsed_details : KYCDetails) (faceMatch : Bool)
    (fraud_score : Nat) : String :=
  if fraud_score ≥ 60 then "REJECTED - High fraud risk"
  else if !faceMatch then "REJECTED - Face mismatch"
  else
    let missing_critical :=
      ((detailsPairs parsed_details).filter fun kv => kv.2 = notFound).length
    if missing_critical > 3 then "MANUAL REVIEW REQUIRED"
    else "VERIFIED"

/-! ## Derived views of the fraud score, for the proofs -/

/-- The number of `"Not found"` fields: the length of `missing_fields`
(kyc_agent.py, line 302) and the `missing_critical` sum (utils.py, line 207). -/
def missingCount (d : KYCDetails) : Nat :=
  ((detailsPairs d).filter fun kv => kv.2 = notFound).length

/-- The score contribution of the date-of-birth age check
(kyc_agent.py, lines 317-333), isolated for score characterisations. -/
def agePenalty (dob : String) (cy : Int) : Nat :=
  if dob ≠ notFound then
    match find4Digits dob.data with
    | some ds =>
      if cy - (digitsToNat ds : Int) < 18 then 30
      else if cy - (digitsToNat ds : Int) > 120 then 40
      else 0
    | none => 0
  else 0

end KYC

namespace KYC

/-! ## Basic lemmas about the fraud score -/

/-- The fraud score is the clamp to 100 of: 15 per missing field, plus 40 on
face mismatch, plus the age penalty. -/
lemma fraud_score_eq (d : KYCDetails) (fm : Bool) (cy : Int) :
    (calculate_fraud_score d fm cy).1 =
      min (missingCount d * 15 + (if fm then 0 else 40) +
        agePenalty d.dateOfBirth cy) 100 := by
  unfold calculate_fraud_score agePenalty
  simp only [List.length_map, List.map_eq_nil_iff, ne_eq]
  by_cases h1 : (detailsPairs d).filter (fun kv => kv.2 = notFound) = [] <;>
  by_cases h2 : d.dateOfBirth = notFound <;>
  cases fm <;>
  rcases hf : find4Digits d.dateOfBirth.data with _ | ds <;>
  simp [h1, h2, hf, missingCount] <;>
  split_ifs <;> simp

/-- The risk level is determined by the clamped score via the 60/30
thresholds. -/
lemma risk_level_eq (d : KYCDetails) (fm : Bool) (cy : Int) :
    (calculate_fraud_score d fm cy).2.1 =
      (if (calculate_fraud_score d fm cy).1 ≥ 60 then riskHigh
       else if (calculate_fraud_score d fm cy).1 ≥ 30 then riskMedium
       else riskLow) := by
  unfold calculate_fraud_score
  split <;> split <;> rfl

/-- The age penalty is at most 40. -/
lemma agePenalty_le_forty (dob : String) (cy : Int) : agePenalty dob cy ≤ 40 := by
  unfold agePenalty
  split_ifs <;> try omega
  rcases find4Digits dob.data with _ | ds <;> simp <;> split_ifs <;> omega

/-- The orchestrator's missing-value test is equivalent to a zero
missing-field count. -/
lemma hasNotFoundValue_false_iff (d : KYCDetails) :
    hasNotFoundValue d = false ↔ missingCount d = 0 := by
  unfold hasNotFoundValue missingCount detailsPairs
  by_cases h1 : d.name = notFound <;>
  by_cases h2 : d.documentNumber = notFound <;>
  by_cases h3 : d.dateOfBirth = notFound <;>
  by_cases h4 : d.issueDate = notFound <;>
  by_cases h5 : d.address = notFound <;>
  by_cases h6 : d.nationality = notFound <;>
  simp [h1, h2, h3, h4, h5, h6]

/-! ## Claim C3 -/

/-- C3: for every parsed-details record, face-match flag and current year,
the fraud score returned by `calculate_fraud_score` lies in the interval
[0, 100]. -/
theorem C3_fraud_score_in_range (d : KYCDetails) (fm : Bool) (cy : Int) :
    0 ≤ (calculate_fraud_score d fm cy).1 ∧
      (calculate_fraud_score d fm cy).1 ≤ 100 :=
  ⟨Nat.zero_le _, by rw [fraud_score_eq]; exact Nat.min_le_right _ _⟩

/-! ## Claim C7 -/

/-- C7: the risk tier returned by `calculate_fraud_score` is the High string
exactly when the final score is at least 60, the Medium string exactly when
the score is in [30, 60), and the Low string exactly when it is below 30. -/
theorem C7_risk_tier_thresholds (d : KYCDetails) (fm : Bool) (cy : Int) :
    ((calculate_fraud_score d fm cy).2.1 = riskHigh ↔
      60 ≤ (calculate_fraud_score d fm cy).1) ∧
    ((calculate_fraud_score d fm cy).2.1 = riskMedium ↔
      30 ≤ (calculate_fraud_score d fm cy).1 ∧
        (calculate_fraud_score d fm cy).1 < 60) ∧
    ((calculate_fraud_score d fm cy).2.1 = riskLow ↔
      (calculate_fraud_score d fm cy).1 < 30) := by
  have hne1 : riskHigh ≠ riskMedium := by decide
  have hne2 : riskHigh ≠ riskLow := by decide
  have hne3 : riskMedium ≠ riskLow := by decide
  rw [risk_level_eq]
  by_cases h60 : (calculate_fraud_score d fm cy).1 ≥ 60 <;>
  by_cases h30 : (calculate_fraud_score d fm cy).1 ≥ 30 <;>
  simp [h60, h30, hne1, hne2, hne3, hne1.symm, hne2.symm, hne3.symm] <;>
  omega

/-! ## Claim C10 -/

/-- C10: the fraud score is zero exactly when the indicator list is empty:
every score increment appends an indicator and every indicator comes with a
positive score increment. -/
theorem C10_zero_score_iff_no_indicators (d : KYCDetails) (fm : Bool)
    (cy : Int) :
    (calculate_fraud_score d fm cy).1 = 0 ↔
      (calculate_fraud_score d fm cy).2.2 = [] := by
  unfold calculate_fraud_score
  simp only [List.length_map, List.map_eq_nil_iff, ne_eq]
  by_cases h1 : (detailsPairs d).filter (fun kv => kv.2 = notFound) = []
  · by_cases h2 : d.dateOfBirth = notFound <;>
    cases fm <;>
    rcases hf : find4Digits d.dateOfBirth.data with _ | ds <;>
    simp [h1, h2, hf] <;> split_ifs <;> simp
  · have hl : 0 < ((detailsPairs d).filter fun kv => kv.2 = notFound).length :=
      List.length_pos.mpr h1
    by_cases h2 : d.dateOfBirth = notFound <;>
    cases fm <;>
    rcases hf : find4Digits d.dateOfBirth.data with _ | ds <;>
    simp [h1, h2, hf] <;> split_ifs <;> simp only [iff_false] <;> omega

/-! ## Claim C4 -/

/-- Setting the Name field to the sentinel cannot lower the missing count. -/
lemma missingCount_update_name (d : KYCDetails) :
    missingCount d ≤ missingCount { d with name := notFound } := by
  unfold missingCount detailsPairs
  by_cases h1 : d.name = notFound <;>
  by_cases h2 : d.documentNumber = notFound <;>
  by_cases h3 : d.dateOfBirth = notFound <;>
  by_cases h4 : d.issueDate = notFound <;>
  by_cases h5 : d.address = notFound <;>
  by_cases h6 : d.nationality = notFound <;>
  simp [h1, h2, h3, h4, h5, h6]

/-- Setting the Document Number field to the sentinel cannot lower the
missing count. -/
lemma missingCount_update_doc (d : KYCDetails) :
    missingCount d ≤ missingCount { d with documentNumber := notFound } := by
  unfold missingCount detailsPairs
  by_cases h1 : d.name = notFound <;>
  by_cases h2 : d.documentNumber = notFound <;>
  by_cases h3 : d.dateOfBirth = notFound <;>
  by_cases h4 : d.issueDate = notFound <;>
  by_cases h5 : d.address = notFound <;>
  by_cases h6 : d.nationality = notFound <;>
  simp [h1, h2, h3, h4, h5, h6]

/-- Setting the Issue Date field to the sentinel cannot lower the missing
count. -/
lemma missingCount_update_issue (d : KYCDetails) :
    missingCount d ≤ missingCount { d with issueDate := notFound } := by
  unfold missingCount detailsPairs
  by_cases h1 : d.name = notFound <;>
  by_cases h2 : d.documentNumber = notFound <;>
  by_cases h3 : d.dateOfBirth = notFound <;>
  by_cases h4 : d.issueDate = notFound <;>
  by_cases h5 : d.address = notFound <;>
  by_cases h6 : d.nationality = notFound <;>
  simp [h1, h2, h3, h4, h5, h6]

/-- Setting the Address field to the sentinel cannot lower the missing
count. -/
lemma missingCount_update_address (d : KYCDetails) :
    missingCount d ≤ missingCount { d with address := notFound } := by
  unfold missingCount detailsPairs
  by_cases h1 : d.name = notFound <;>
  by_cases h2 : d.documentNumber = notFound <;>
  by_cases h3 : d.dateOfBirth = notFound <;>
  by_cases h4 : d.issueDate = notFound <;>
  by_cases h5 : d.address = notFound <;>
  by_cases h6 : d.nationality = notFound <;>
  simp [h1, h2, h3, h4, h5, h6]

/-- Setting the Nationality field to the sentinel cannot lower the missing
count. -/
lemma missingCount_update_nat (d : KYCDetails) :
    missingCount d ≤ missingCount { d with nationality := notFound } := by
  unfold missingCount detailsPairs
  by_cases h1 : d.name = notFound <;>
  by_cases h2 : d.documentNumber = notFound <;>
  by_cases h3 : d.dateOfBirth = notFound <;>
  by_cases h4 : d.issueDate = notFound <;>
  by_cases h5 : d.address = notFound <;>
  by_cases h6 : d.nationality = notFound <;>
  simp [h1, h2, h3, h4, h5, h6]

/-- C4 counterexample: replacing a Date Of Birth that triggers the under-18
age penalty (+30) by the sentinel trades it for the missing-field increment
(+15), so the fraud score strictly decreases.  Here the original record has
all fields present with birth year 2010 and current year 2026: score 30
before, 15 after. -/
theorem C4_counterexample :
    (calculate_fraud_score
        { (⟨"RAM THAPA", "123-45-67", "2010-01-01", "2015-06-07",
            "District: KTM", "NEPALESE"⟩ : KYCDetails) with
          dateOfBirth := notFound } true 2026).1 <
      (calculate_fraud_score
        (⟨"RAM THAPA", "123-45-67", "2010-01-01", "2015-06-07",
          "District: KTM", "NEPALESE"⟩ : KYCDetails) true 2026).1 := by
  decide

/-- C4 amended: for any fixed face-match flag and current year, setting any
one field other than Date Of Birth to the sentinel `"Not found"` never
decreases the fraud score.  (For Date Of Birth the original claim fails,
because clearing it can remove an age penalty larger than the missing-field
increment; see the counterexample.) -/
theorem C4_amended_monotone_except_dob (d : KYCDetails) (fm : Bool)
    (cy : Int) :
    (calculate_fraud_score d fm cy).1 ≤
        (calculate_fraud_score { d with name := notFound } fm cy).1 ∧
    (calculate_fraud_score d fm cy).1 ≤
        (calculate_fraud_score { d with documentNumber := notFound } fm cy).1 ∧
    (calculate_fraud_score d fm cy).1 ≤
        (calculate_fraud_score { d with issueDate := notFound } fm cy).1 ∧
    (calculate_fraud_score d fm cy).1 ≤
        (calculate_fraud_score { d with address := notFound } fm cy).1 ∧
    (calculate_fraud_score d fm cy).1 ≤
        (calculate_fraud_score { d with nationality := notFound } fm cy).1 := by
  refine ⟨?_, ?_, ?_, ?_, ?_⟩ <;>
  rw [fraud_score_eq, fraud_score_eq] <;>
  dsimp only <;>
  refine min_le_min (Nat.add_le_add (Nat.add_le_add ?_ le_rfl) le_rfl) le_rfl <;>
  [exact Nat.mul_le_mul_right 15 (missingCount_update_name d);
   exact Nat.mul_le_mul_right 15 (missingCount_update_doc d);
   exact Nat.mul_le_mul_right 15 (missingCount_update_issue d);
   exact Nat.mul_le_mul_right 15 (missingCount_update_address d);
   exact Nat.mul_le_mul_right 15 (missingCount_update_nat d)]

/-! ## Claim C5 -/

/-- C5: when the face-verification message does not contain
`"CRITICAL ERROR"`, the derived status is `MANUAL REVIEW REQUIRED` exactly
when some field is `"Not found"` or the faces did not match, and `VERIFIED`
exactly otherwise. -/
theorem C5_status_dichotomy (d : KYCDetails) (msg : String) (fm : Bool)
    (h : hasSubL msg.data "CRITICAL ERROR".data = false) :
    (process_kyc_status d msg fm = "MANUAL REVIEW REQUIRED" ↔
      (hasNotFoundValue d = true ∨ fm = false)) ∧
    (process_kyc_status d msg fm = "VERIFIED" ↔
      ¬(hasNotFoundValue d = true ∨ fm = false)) := by
  unfold process_kyc_status
  rw [h]
  cases hnf : hasNotFoundValue d <;> cases fm <;> simp

/-- Witness for C5 on a fully extracted record with matching faces. -/
theorem C5_witness :
    process_kyc_status
      ⟨"RAM THAPA", "123-45-67", "1990-JAN-15", "2015-06-07",
        "District: KTM", "NEPALESE"⟩ "Faces Match!" true = "VERIFIED" :=
  (C5_status_dichotomy _ "Faces Match!" true (by decide)).2.mpr (by decide)

/-! ## Claim C6 -/

/-- C6: for every input text that is empty or whose stripped length is below
10, `parse_kyc_details` returns every field as `"Not found"` except
Nationality, which is `"NEPALESE"` (that is, the default record). -/
theorem C6_short_text_all_defaults (text : String)
    (h : text = "" ∨ (pyStripL text.data).length < 10) :
    parse_kyc_details text = defaultDetails := by
  unfold parse_kyc_details
  rcases h with h | h <;> simp [h]

/-- Witness for C6 at the empty text. -/
theorem C6_witness : parse_kyc_details "" = defaultDetails :=
  C6_short_text_all_defaults "" (Or.inl rfl)

/-! ## Substring lemmas for the status claims -/

/-- A list is a `preL`-prefix of itself extended by anything. -/
lemma preL_append_self : ∀ (pat rest : List Char), preL pat (pat ++ rest) = true
  | [], _ => rfl
  | c :: cs, rest => by simp [preL, preL_append_self cs rest]

/-- A `preL`-prefix is in particular a substring. -/
lemma hasSubL_of_preL {l pat : List Char} (h : preL pat l = true) :
    hasSubL l pat = true := by
  cases l with
  | nil =>
    cases pat with
    | nil => rfl
    | cons c r => simp [preL] at h
  | cons c r => simp [hasSubL, h]

/-- `a ++ b` contains `b` as a substring. -/
lemma hasSubL_append_self : ∀ (a b : List Char), hasSubL (a ++ b) b = true
  | [], b => by
    apply hasSubL_of_preL
    have := preL_append_self b []
    simpa using this
  | c :: a, b => by simp [hasSubL, hasSubL_append_self a b]

/-- On a benign face message, the derived status is the two-way
missing-or-mismatch test. -/
lemma process_status_benign (d : KYCDetails) (msg : String) (fm : Bool)
    (h : hasSubL msg.data "CRITICAL ERROR".data = false) :
    process_kyc_status d msg fm =
      (if hasNotFoundValue d || !fm then "MANUAL REVIEW REQUIRED"
       else "VERIFIED") := by
  unfold process_kyc_status
  rw [h]
  simp

/-! ## Claim C1 -/

/-- C1 counterexample: a cuda initialization error raised during face
verification produces the fixed library-initialization message, which does
not contain `"CRITICAL ERROR"`, so `process_kyc` derives
`MANUAL REVIEW REQUIRED` (not `PROCESSING ERROR`), and the message does not
reference the error text. -/
theorem C1_counterexample :
    hasSubL ("CUDA error: no device".data.map pyLower) "cuda".data = true ∧
    verify_faces_exc "CUDA error: no device" =
      ("Face comparison error: Could not initialize processing library. Please check environment.",
       false) ∧
    process_kyc_status
        ⟨"RAM THAPA", "123-45-67", "1990-JAN-15", "2015-06-07",
          "District: KTM", "NEPALESE"⟩
        (verify_faces_exc "CUDA error: no device").1
        (verify_faces_exc "CUDA error: no device").2 =
      "MANUAL REVIEW REQUIRED" ∧
    ("MANUAL REVIEW REQUIRED" : String) ≠ "PROCESSING ERROR" ∧
    hasSubL (verify_faces_exc "CUDA error: no device").1.data
        "CUDA error: no device".data = false := by
  decide

/-- C1 amended: if the face-verification step raises an error whose message
mentions neither cuda nor dlib, the overall status is `PROCESSING ERROR`
and the face-verification message contains the error text; a cuda/dlib
initialization error instead yields the fixed library-initialization
diagnostic and overall status `MANUAL REVIEW REQUIRED`. -/
theorem C1_amended_error_status (d : KYCDetails) (e : String) :
    (hasSubL (e.data.map pyLower) "cuda".data = false →
     hasSubL (e.data.map pyLower) "dlib".data = false →
       process_kyc_status d (verify_faces_exc e).1 (verify_faces_exc e).2 =
           "PROCESSING ERROR" ∧
         hasSubL (verify_faces_exc e).1.data e.data = true) ∧
    ((hasSubL (e.data.map pyLower) "cuda".data = true ∨
      hasSubL (e.data.map pyLower) "dlib".data = true) →
       process_kyc_status d (verify_faces_exc e).1 (verify_faces_exc e).2 =
         "MANUAL REVIEW REQUIRED") := by
  constructor
  · intro h1 h2
    have hmsg : verify_faces_exc e =
        ("CRITICAL ERROR during face verification: " ++ e, false) := by
      unfold verify_faces_exc
      simp [h1, h2]
    rw [hmsg]
    have hdata : ("CRITICAL ERROR during face verification: " ++ e).data =
        "CRITICAL ERROR during face verification: ".data ++ e.data :=
      String.data_append _ _
    constructor
    · unfold process_kyc_status
      have hcrit : hasSubL ("CRITICAL ERROR during face verification: " ++ e).data
          "CRITICAL ERROR".data = true := by
        rw [hdata]
        apply hasSubL_of_preL
        have hsplit : "CRITICAL ERROR during face verification: ".data =
            "CRITICAL ERROR".data ++ " during face verification: ".data := by
          decide
        rw [hsplit, List.append_assoc]
        exact preL_append_self _ _
      rw [hcrit]
      simp
    · rw [hdata]
      exact hasSubL_append_self _ _
  · intro h
    have hmsg : verify_faces_exc e =
        ("Face comparison error: Could not initialize processing library. Please check environment.",
         false) := by
      unfold verify_faces_exc
      rcases h with h | h <;> simp [h]
    rw [hmsg]
    have hben :
        hasSubL "Face comparison error: Could not initialize processing library. Please check environment.".data
          "CRITICAL ERROR".data = false := by decide
    rw [process_status_benign _ _ _ hben]
    simp

/-- Witness for C1 amended: a generic error surfaces as `PROCESSING ERROR`
with the error text in the message; a cuda error surfaces as
`MANUAL REVIEW REQUIRED`. -/
theorem C1_amended_witness :
    process_kyc_status defaultDetails (verify_faces_exc "segmentation fault").1
        (verify_faces_exc "segmentation fault").2 = "PROCESSING ERROR" ∧
    hasSubL (verify_faces_exc "segmentation fault").1.data
        "segmentation fault".data = true ∧
    process_kyc_status defaultDetails (verify_faces_exc "cuda kernel panic").1
        (verify_faces_exc "cuda kernel panic").2 = "MANUAL REVIEW REQUIRED" :=
  ⟨((C1_amended_error_status defaultDetails "segmentation fault").1
      (by decide) (by decide)).1,
   ((C1_amended_error_status defaultDetails "segmentation fault").1
      (by decide) (by decide)).2,
   (C1_amended_error_status defaultDetails "cuda kernel panic").2
      (Or.inl (by decide))⟩

/-! ## Claim C8 -/

/-- C8 counterexample: on the same data (one missing field, faces matched,
benign message, fraud score 15), the structured report's
`determine_overall_status` returns `VERIFIED` while `process_kyc` derives
`MANUAL REVIEW REQUIRED`: the two status derivations are not equivalent. -/
theorem C8_counterexample :
    determine_overall_status
        (⟨"RAM THAPA", "123-45-67", "1990-JAN-15", "2015-06-07",
          notFound, "NEPALESE"⟩ : KYCDetails) true
        (calculate_fraud_score
          (⟨"RAM THAPA", "123-45-67", "1990-JAN-15", "2015-06-07",
            notFound, "NEPALESE"⟩ : KYCDetails) true 2026).1 = "VERIFIED" ∧
    process_kyc_status
        (⟨"RAM THAPA", "123-45-67", "1990-JAN-15", "2015-06-07",
          notFound, "NEPALESE"⟩ : KYCDetails) "Faces Match!" true =
      "MANUAL REVIEW REQUIRED" ∧
    ("VERIFIED" : String) ≠ "MANUAL REVIEW REQUIRED" := by
  decide

/-- C8 amended: the two status derivations agree only one-sidedly.  With a
benign face message and the fraud score computed from the same data:
if `process_kyc` derives `VERIFIED` then `determine_overall_status` returns
`VERIFIED`, and if `determine_overall_status` returns
`MANUAL REVIEW REQUIRED` then `process_kyc` derives
`MANUAL REVIEW REQUIRED`.  Full equivalence fails because the structured
form tolerates up to three missing fields and has separate rejection
statuses. -/
theorem C8_amended_one_directional (d : KYCDetails) (fm : Bool) (cy : Int)
    (msg : String) (h : hasSubL msg.data "CRITICAL ERROR".data = false) :
    (process_kyc_status d msg fm = "VERIFIED" →
       determine_overall_status d fm (calculate_fraud_score d fm cy).1 =
         "VERIFIED") ∧
    (determine_overall_status d fm (calculate_fraud_score d fm cy).1 =
        "MANUAL REVIEW REQUIRED" →
       process_kyc_status d msg fm = "MANUAL REVIEW REQUIRED") := by
  constructor
  · intro hv
    rw [process_status_benign _ _ _ h] at hv
    by_cases hc : (hasNotFoundValue d || !fm) = true
    · rw [if_pos hc] at hv
      exact absurd hv (by decide)
    · rw [if_neg hc] at hv
      have hnf : hasNotFoundValue d = false := by
        cases hx : hasNotFoundValue d
        · rfl
        · exact absurd (by simp [hx]) hc
      have hfm : fm = true := by
        cases hy : fm
        · exact absurd (by simp [hy]) hc
        · rfl
      have hm0 : missingCount d = 0 := (hasNotFoundValue_false_iff d).mp hnf
      have hscore : (calculate_fraud_score d fm cy).1 < 60 := by
        rw [fraud_score_eq, hm0, hfm]
        have := agePenalty_le_forty d.dateOfBirth cy
        simp
        omega
      unfold determine_overall_status
      have hm0' : ((detailsPairs d).filter fun kv => kv.2 = notFound).length = 0 := hm0
      rw [if_neg (by omega), if_neg (by simp [hfm])]
      simp [hm0']
  · intro hd
    unfold determine_overall_status at hd
    by_cases h60 : (calculate_fraud_score d fm cy).1 ≥ 60
    · rw [if_pos h60] at hd
      exact absurd hd (by decide)
    · rw [if_neg h60] at hd
      cases hfm : fm with
      | false =>
        rw [hfm] at hd
        simp at hd
      | true =>
        rw [hfm] at hd
        simp only [Bool.not_true, if_false, ite_false, Bool.false_eq_true] at hd
        by_cases hmc :
            ((detailsPairs d).filter fun kv => kv.2 = notFound).length > 3
        · have hnf : hasNotFoundValue d = true := by
            cases hx : hasNotFoundValue d
            · have : missingCount d = 0 := (hasNotFoundValue_false_iff d).mp hx
              unfold missingCount at this
              omega
            · rfl
          rw [process_status_benign _ _ _ h]
          simp [hnf]
        · rw [if_neg hmc] at hd
          exact absurd hd (by decide)

/-- Witness for C8 amended on a fully extracted, face-matched record. -/
theorem C8_amended_witness :
    determine_overall_status
        (⟨"RAM THAPA", "123-45-67", "1990-JAN-15", "2015-06-07",
          "District: KTM", "NEPALESE"⟩ : KYCDetails) true
        (calculate_fraud_score
          (⟨"RAM THAPA", "123-45-67", "1990-JAN-15", "2015-06-07",
            "District: KTM", "NEPALESE"⟩ : KYCDetails) true 2026).1 =
      "VERIFIED" :=
  (C8_amended_one_directional _ true 2026 "Faces Match!" (by decide)).1
    (by decide)

/-! ## Inversion lemmas for the matcher combinators

These recover, from a successful match, the continuation call it came from
together with the characters consumed by the capturing pieces. -/

/-- Splitting a successful `<|>`. -/
lemma orElse_some {a b : Option α} {r : α} (h : (a <|> b) = some r) :
    a = some r ∨ b = some r := by
  cases a <;> simp_all

/-- A successful `lit` reaches its continuation. -/
lemma lit_some {r : α} :
    ∀ {ls s : List Char} {k : List Char → Option α},
      lit ls s k = some r → ∃ s', k s' = some r := by
  intro ls
  induction ls with
  | nil => exact fun h => ⟨_, h⟩
  | cons c cs ih =>
    intro s k h
    cases s with
    | nil => simp [lit] at h
    | cons d ds =>
      simp only [lit] at h
      by_cases hc : c = d
      · rw [if_pos hc] at h
        exact ih h
      · rw [if_neg hc] at h
        simp at h

/-- A successful greedy star reaches its continuation. -/
lemma starG_some {p : Char → Bool} {r : α} :
    ∀ {s : List Char} {k : List Char → Option α},
      starG p s k = some r → ∃ s', k s' = some r := by
  intro s
  induction s with
  | nil => exact fun h => ⟨_, h⟩
  | cons c rest ih =>
    intro k h
    simp only [starG] at h
    by_cases hc : p c = true
    · rw [if_pos hc] at h
      rcases orElse_some h with h1 | h1
      · exact ih h1
      · exact ⟨_, h1⟩
    · rw [if_neg hc] at h
      exact ⟨_, h⟩

/-- A successful greedy plus reaches its continuation. -/
lemma plusG_some {p : Char → Bool} {r : α} {s : List Char}
    {k : List Char → Option α} (h : plusG p s k = some r) :
    ∃ s', k s' = some r := by
  cases s with
  | nil => simp [plusG] at h
  | cons c rest =>
    simp only [plusG] at h
    by_cases hc : p c = true
    · rw [if_pos hc] at h
      exact starG_some h
    · rw [if_neg hc] at h
      simp at h

/-- A successful greedy optional reaches its continuation. -/
lemma optG_some {p : Char → Bool} {r : α} {s : List Char}
    {k : List Char → Option α} (h : optG p s k = some r) :
    ∃ s', k s' = some r := by
  cases s with
  | nil => exact ⟨_, h⟩
  | cons c rest =>
    simp only [optG] at h
    by_cases hc : p c = true
    · rw [if_pos hc] at h
      rcases orElse_some h with h1 | h1
      · exact ⟨_, h1⟩
      · exact ⟨_, h1⟩
    · rw [if_neg hc] at h
      exact ⟨_, h⟩

/-- A successful lazy star reaches its continuation. -/
lemma starL_some {p : Char → Bool} {r : α} :
    ∀ {s : List Char} {k : List Char → Option α},
      starL p s k = some r → ∃ s', k s' = some r := by
  intro s
  induction s with
  | nil => exact fun h => ⟨_, h⟩
  | cons c rest ih =>
    intro k h
    simp only [starL] at h
    rcases orElse_some h with h1 | h1
    · exact ⟨_, h1⟩
    · by_cases hc : p c = true
      · rw [if_pos hc] at h1
        exact ih h1
      · rw [if_neg hc] at h1
        simp at h1

/-- A successful single-character class match reaches its continuation. -/
lemma one_some {p : Char → Bool} {r : α} {s : List Char}
    {k : List Char → Option α} (h : one p s k = some r) :
    ∃ s', k s' = some r := by
  cases s with
  | nil => simp [one] at h
  | cons c rest =>
    simp only [one] at h
    by_cases hc : p c = true
    · rw [if_pos hc] at h
      exact ⟨_, h⟩
    · rw [if_neg hc] at h
      simp at h

/-- A successful capturing greedy star reaches its continuation with the
capture extended by class characters. -/
lemma capStarG_some {p : Char → Bool} {r : α} :
    ∀ {s acc : List Char} {k : List Char → List Char → Option α},
      capStarG p acc s k = some r →
      ∃ pre s', (∀ c ∈ pre, p c = true) ∧ k (pre ++ acc) s' = some r := by
  intro s
  induction s with
  | nil => exact fun h => ⟨[], [], by simp, h⟩
  | cons c rest ih =>
    intro acc k h
    simp only [capStarG] at h
    by_cases hc : p c = true
    · rw [if_pos hc] at h
      rcases orElse_some h with h1 | h1
      · rcases ih h1 with ⟨pre, s', hall, hk⟩
        refine ⟨pre ++ [c], s', ?_, ?_⟩
        · intro x hx
          rcases List.mem_append.mp hx with hx | hx
          · exact hall x hx
          · rw [List.mem_singleton.mp hx]
            exact hc
        · rw [List.append_assoc, List.singleton_append]
          exact hk
      · exact ⟨[], c :: rest, by simp, h1⟩
    · rw [if_neg hc] at h
      exact ⟨[], c :: rest, by simp, h⟩

/-- A successful capturing greedy plus reaches its continuation with a
nonempty capture of class characters. -/
lemma capPlusG_some {p : Char → Bool} {r : α} {s acc : List Char}
    {k : List Char → List Char → Option α}
    (h : capPlusG p acc s k = some r) :
    ∃ pre s', pre ≠ [] ∧ (∀ c ∈ pre, p c = true) ∧
      k (pre ++ acc) s' = some r := by
  cases s with
  | nil => simp [capPlusG] at h
  | cons c rest =>
    simp only [capPlusG] at h
    by_cases hc : p c = true
    · rw [if_pos hc] at h
      rcases capStarG_some h with ⟨pre, s', hall, hk⟩
      refine ⟨pre ++ [c], s', by simp, ?_, ?_⟩
      · intro x hx
        rcases List.mem_append.mp hx with hx | hx
        · exact hall x hx
        · rw [List.mem_singleton.mp hx]
          exact hc
      · rw [List.append_assoc, List.singleton_append]
        exact hk
    · rw [if_neg hc] at h
      simp at h

/-- A successful capturing bounded repetition reaches its continuation with
at least its mandatory count of class characters captured. -/
lemma capRange_some {p : Char → Bool} {r : α} :
    ∀ {s : List Char} {n m : Nat} {acc : List Char}
      {k : List Char → List Char → Option α},
      capRange p n m acc s k = some r →
      ∃ pre s', n ≤ pre.length ∧ (∀ c ∈ pre, p c = true) ∧
        k (pre ++ acc) s' = some r := by
  intro s
  induction s with
  | nil =>
    intro n m acc k h
    match n, m with
    | 0, 0 => exact ⟨[], [], by simp, by simp, h⟩
    | 0, m + 1 => exact ⟨[], [], by simp, by simp, h⟩
    | n + 1, m => simp [capRange] at h
  | cons c rest ih =>
    intro n m acc k h
    match n, m with
    | 0, 0 => exact ⟨[], c :: rest, by simp, by simp, h⟩
    | 0, m + 1 =>
      simp only [capRange] at h
      by_cases hc : p c = true
      · rw [if_pos hc] at h
        rcases orElse_some h with h1 | h1
        · rcases ih h1 with ⟨pre, s', _, hall, hk⟩
          refine ⟨pre ++ [c], s', by simp, ?_, ?_⟩
          · intro x hx
            rcases List.mem_append.mp hx with hx | hx
            · exact hall x hx
            · rw [List.mem_singleton.mp hx]
              exact hc
          · rw [List.append_assoc, List.singleton_append]
            exact hk
        · exact ⟨[], c :: rest, by simp, by simp, h1⟩
      · rw [if_neg hc] at h
        exact ⟨[], c :: rest, by simp, by simp, h⟩
    | n + 1, m =>
      simp only [capRange] at h
      by_cases hc : p c = true
      · rw [if_pos hc] at h
        rcases ih h with ⟨pre, s', hlen, hall, hk⟩
        refine ⟨pre ++ [c], s', ?_, ?_, ?_⟩
        · simp
          omega
        · intro x hx
          rcases List.mem_append.mp hx with hx | hx
          · exact hall x hx
          · rw [List.mem_singleton.mp hx]
            exact hc
        · rw [List.append_assoc, List.singleton_append]
          exact hk
      · rw [if_neg hc] at h
        simp at h

/-- A successful captured single character reaches its continuation. -/
lemma capOne_some {p : Char → Bool} {r : α} {s acc : List Char}
    {k : List Char → List Char → Option α}
    (h : capOne p acc s k = some r) :
    ∃ c s', p c = true ∧ k (c :: acc) s' = some r := by
  cases s with
  | nil => simp [capOne] at h
  | cons c rest =>
    simp only [capOne] at h
    by_cases hc : p c = true
    · rw [if_pos hc] at h
      exact ⟨c, rest, hc, h⟩
    · rw [if_neg hc] at h
      simp at h

/-- A successful search succeeds at some start position. -/
lemma searchFrom_some {m : List Char → Option α} {r : α} :
    ∀ {s : List Char}, searchFrom m s = some r → ∃ s', m s' = some r := by
  intro s
  induction s with
  | nil => exact fun h => ⟨_, h⟩
  | cons c rest ih =>
    intro h
    simp only [searchFrom] at h
    rcases orElse_some h with h1 | h1
    · exact ⟨_, h1⟩
    · exact ih h1

/-- A successful boundary-aware search succeeds at some position. -/
lemma searchPrev_some {m : Option Char → List Char → Option α} {r : α} :
    ∀ {s : List Char} {prev : Option Char},
      searchPrev m prev s = some r → ∃ prev' s', m prev' s' = some r := by
  intro s
  induction s with
  | nil => exact fun h => ⟨_, _, h⟩
  | cons c rest ih =>
    intro prev h
    simp only [searchPrev] at h
    rcases orElse_some h with h1 | h1
    · exact ⟨_, _, h1⟩
    · exact ih h1

/-! ## Character-class facts and string helpers -/

/-- Digits are not whitespace. -/
lemma isDigit_not_space {c : Char} (h : c.isDigit = true) :
    isPySpace c = false := by
  cases hx : isPySpace c
  · rfl
  · exfalso
    unfold isPySpace at hx
    simp only [Bool.or_eq_true, decide_eq_true_eq] at hx
    rcases hx with ((((rfl | rfl) | rfl) | rfl) | rfl) | rfl <;>
      exact absurd h (by decide)

/-- `[\d-]` characters are not whitespace. -/
lemma isDigitDash_not_space {c : Char} (h : isDigitDash c = true) :
    isPySpace c = false := by
  unfold isDigitDash at h
  simp only [Bool.or_eq_true, decide_eq_true_eq] at h
  rcases h with h | rfl
  · exact isDigit_not_space h
  · decide

/-- Dash/slash separators are not whitespace. -/
lemma isSepSlashDash_not_space {c : Char} (h : isSepSlashDash c = true) :
    isPySpace c = false := by
  unfold isSepSlashDash at h
  simp only [Bool.or_eq_true, decide_eq_true_eq] at h
  rcases h with rfl | rfl <;> decide

/-- Dash/dot separators are not whitespace. -/
lemma isSepDashDot_not_space {c : Char} (h : isSepDashDot c = true) :
    isPySpace c = false := by
  unfold isSepDashDot at h
  simp only [Bool.or_eq_true, decide_eq_true_eq] at h
  rcases h with rfl | rfl <;> decide

/-- `dropWhile` is the identity on a list with no satisfying character. -/
lemma dropWhile_eq_self_of_all {q : Char → Bool} {l : List Char}
    (h : ∀ c ∈ l, q c = false) : l.dropWhile q = l := by
  cases l with
  | nil => rfl
  | cons c rest =>
    rw [List.dropWhile_cons, if_neg]
    simp [h c (by simp)]

/-- Stripping a whitespace-free list is the identity. -/
lemma pyStripL_eq_self {l : List Char} (h : ∀ c ∈ l, isPySpace c = false) :
    pyStripL l = l := by
  unfold pyStripL
  rw [dropWhile_eq_self_of_all h, dropWhile_eq_self_of_all, List.reverse_reverse]
  intro c hc
  exact h c (List.mem_reverse.mp hc)

/-- A string built from a nonempty character list is nonempty. -/
lemma mk_ne_empty {l : List Char} (h : l ≠ []) : String.mk l ≠ "" := by
  intro he
  apply h
  simpa using congrArg String.data he

/-- Stripping a nonempty whitespace-free capture yields a nonempty string. -/
lemma stripped_mk_ne_empty {g : List Char} (hne : g ≠ [])
    (hns : ∀ c ∈ g, isPySpace c = false) : String.mk (pyStripL g) ≠ "" := by
  rw [pyStripL_eq_self hns]
  exact mk_ne_empty hne

/-- Joining at least two words is nonempty. -/
lemma joinWords_ne_nil {ws : List (List Char)} (h : 2 ≤ ws.length) :
    joinWords ws ≠ [] := by
  match ws with
  | a :: b :: t => simp [joinWords]

/-! ## Soundness of the field extractors -/

/-- A successful name-pattern iteration returns a join of at least two
filtered words, or defers to the next pattern. -/
lemma nameTry_some {res : Option (List Char)}
    {next : Unit → Option (List Char)} {w : List Char}
    (h : nameTry res next = some w) :
    (∃ ws, 2 ≤ ws.length ∧ w = joinWords ws) ∨ next () = some w := by
  unfold nameTry at h
  cases res with
  | none => exact Or.inr h
  | some g =>
    dsimp only at h
    by_cases hw : (nameWordsOf g).length ≥ 2
    · rw [if_pos hw] at h
      exact Or.inl ⟨nameWordsOf g, hw, (Option.some.inj h).symm⟩
    · rw [if_neg hw] at h
      exact Or.inr h

/-- A successfully extracted name is a join of at least two words. -/
lemma nameField_some {tu w : List Char} (h : nameField tu = some w) :
    ∃ ws, 2 ≤ ws.length ∧ w = joinWords ws := by
  unfold nameField at h
  rcases nameTry_some h with h1 | h1
  · exact h1
  rcases nameTry_some h1 with h2 | h2
  · exact h2
  rcases nameTry_some h2 with h3 | h3
  · exact h3
  · simp at h3

/-- The capture of the CERTIFICATE NO. pattern is nonempty and
whitespace-free. -/
lemma doc1At_sound {s g : List Char} (h : doc1At s = some g) :
    g ≠ [] ∧ ∀ c ∈ g, isPySpace c = false := by
  unfold doc1At at h
  rcases lit_some h with ⟨s1, h⟩
  rcases plusG_some h with ⟨s2, h⟩
  rcases lit_some h with ⟨s3, h⟩
  rcases optG_some h with ⟨s4, h⟩
  rcases starG_some h with ⟨s5, h⟩
  rcases starG_some h with ⟨s6, h⟩
  rcases optG_some h with ⟨s7, h⟩
  rcases capPlusG_some h with ⟨pre, s8, hne, hall, h⟩
  have hg : g = (pre ++ []).reverse := (Option.some.inj h).symm
  subst hg
  refine ⟨by simpa using hne, ?_⟩
  intro c hc
  simp only [List.append_nil, List.mem_reverse] at hc
  exact isDigitDash_not_space (hall c hc)

/-- The capture of the CITIZENSHIP/ID NO. patterns is nonempty and
whitespace-free. -/
lemma docLblAt_sound {lbl s g : List Char} (h : docLblAt lbl s = some g) :
    g ≠ [] ∧ ∀ c ∈ g, isPySpace c = false := by
  unfold docLblAt at h
  rcases lit_some h with ⟨s1, h⟩
  rcases plusG_some h with ⟨s2, h⟩
  rcases lit_some h with ⟨s3, h⟩
  rcases optG_some h with ⟨s4, h⟩
  rcases starG_some h with ⟨s5, h⟩
  rcases optG_some h with ⟨s6, h⟩
  rcases starG_some h with ⟨s7, h⟩
  rcases capPlusG_some h with ⟨pre, s8, hne, hall, h⟩
  have hg : g = (pre ++ []).reverse := (Option.some.inj h).symm
  subst hg
  refine ⟨by simpa using hne, ?_⟩
  intro c hc
  simp only [List.append_nil, List.mem_reverse] at hc
  exact isDigitDash_not_space (hall c hc)

/-- The capture of the bare dashed-number pattern is nonempty and
whitespace-free. -/
lemma doc4At_sound {prev : Option Char} {s g : List Char}
    (h : doc4At prev s = some g) :
    g ≠ [] ∧ ∀ c ∈ g, isPySpace c = false := by
  unfold doc4At at h
  by_cases hb : bdryBefore prev = true
  · rw [if_pos hb] at h
    rcases capRange_some h with ⟨p1, s1, hl1, ha1, h⟩
    rcases capOne_some h with ⟨c1, s2, hc1, h⟩
    rcases capRange_some h with ⟨p2, s3, hl2, ha2, h⟩
    rcases capOne_some h with ⟨c2, s4, hc2, h⟩
    rcases capRange_some h with ⟨p3, s5, hl3, ha3, h⟩
    rcases capOne_some h with ⟨c3, s6, hc3, h⟩
    rcases capRange_some h with ⟨p4, s7, hl4, ha4, h⟩
    have hg : g = (p4 ++ c3 :: (p3 ++ c2 :: (p2 ++ c1 :: (p1 ++ [])))).reverse := by
      cases s7 with
      | nil => exact (Option.some.inj h).symm
      | cons c cs =>
        simp only at h
        by_cases hw : (!isWordChar c) = true
        · rw [if_pos hw] at h
          exact (Option.some.inj h).symm
        · rw [if_neg hw] at h
          simp at h
    subst hg
    constructor
    · simp
    · intro c hc
      simp only [List.append_nil, List.mem_reverse, List.mem_append,
        List.mem_cons] at hc
      rcases hc with hc | rfl | hc | rfl | hc | rfl | hc
      · exact isDigit_not_space (ha4 c hc)
      · exact isSepSlashDash_not_space hc3
      · exact isDigit_not_space (ha3 c hc)
      · exact isSepSlashDash_not_space hc2
      · exact isDigit_not_space (ha2 c hc)
      · exact isSepSlashDash_not_space hc1
      · exact isDigit_not_space (ha1 c hc)
  · rw [if_neg hb] at h
    simp at h

/-- Any successfully extracted document number strips to a nonempty
string. -/
lemma docField_sound {tu g : List Char} (h : docField tu = some g) :
    g ≠ [] ∧ ∀ c ∈ g, isPySpace c = false := by
  unfold docField at h
  rcases orElse_some h with h | h
  · rcases searchFrom_some h with ⟨s', h⟩
    exact doc1At_sound h
  rcases orElse_some h with h | h
  · rcases searchFrom_some h with ⟨s', h⟩
    exact docLblAt_sound h
  rcases orElse_some h with h | h
  · rcases searchFrom_some h with ⟨s', h⟩
    exact docLblAt_sound h
  · rcases searchPrev_some h with ⟨p', s', h⟩
    exact doc4At_sound h

/-- The capture of the labelled issue-date patterns is nonempty and
whitespace-free. -/
lemma issueLblAt_sound {l1 l2 s g : List Char}
    (h : issueLblAt l1 l2 s = some g) :
    g ≠ [] ∧ ∀ c ∈ g, isPySpace c = false := by
  unfold issueLblAt at h
  rcases lit_some h with ⟨s1, h⟩
  rcases plusG_some h with ⟨s2, h⟩
  rcases lit_some h with ⟨s3, h⟩
  rcases starG_some h with ⟨s4, h⟩
  rcases optG_some h with ⟨s5, h⟩
  rcases starG_some h with ⟨s6, h⟩
  rcases capRange_some h with ⟨p1, s7, hl1, ha1, h⟩
  rcases capOne_some h with ⟨c1, s8, hc1, h⟩
  rcases capRange_some h with ⟨p2, s9, hl2, ha2, h⟩
  rcases capOne_some h with ⟨c2, s10, hc2, h⟩
  rcases capRange_some h with ⟨p3, s11, hl3, ha3, h⟩
  have hg : g = (p3 ++ c2 :: (p2 ++ c1 :: (p1 ++ []))).reverse :=
    (Option.some.inj h).symm
  subst hg
  constructor
  · simp
  · intro c hc
    simp only [List.append_nil, List.mem_reverse, List.mem_append,
      List.mem_cons] at hc
    rcases hc with hc | rfl | hc | rfl | hc
    · exact isDigit_not_space (ha3 c hc)
    · exact isSepSlashDash_not_space hc2
    · exact isDigit_not_space (ha2 c hc)
    · exact isSepSlashDash_not_space hc1
    · exact isDigit_not_space (ha1 c hc)

/-- The capture of the bare date-shaped pattern is nonempty and
whitespace-free. -/
lemma issue3At_sound {s g : List Char} (h : issue3At s = some g) :
    g ≠ [] ∧ ∀ c ∈ g, isPySpace c = false := by
  unfold issue3At at h
  rcases capRange_some h with ⟨p1, s1, hl1, ha1, h⟩
  rcases capOne_some h with ⟨c1, s2, hc1, h⟩
  rcases capRange_some h with ⟨p2, s3, hl2, ha2, h⟩
  rcases capOne_some h with ⟨c2, s4, hc2, h⟩
  rcases capRange_some h with ⟨p3, s5, hl3, ha3, h⟩
  have hg : g = (p3 ++ c2 :: (p2 ++ c1 :: (p1 ++ []))).reverse :=
    (Option.some.inj h).symm
  subst hg
  constructor
  · simp
  · intro c hc
    simp only [List.append_nil, List.mem_reverse, List.mem_append,
      List.mem_cons] at hc
    rcases hc with hc | rfl | hc | rfl | hc
    · exact isDigit_not_space (ha3 c hc)
    · exact isSepDashDot_not_space hc2
    · exact isDigit_not_space (ha2 c hc)
    · exact isSepDashDot_not_space hc1
    · exact isDigit_not_space (ha1 c hc)

/-- Any successfully extracted issue date strips to a nonempty string. -/
lemma issueField_sound {tu g : List Char} (h : issueField tu = some g) :
    g ≠ [] ∧ ∀ c ∈ g, isPySpace c = false := by
  unfold issueField at h
  rcases orElse_some h with h | h
  · rcases searchFrom_some h with ⟨s', h⟩
    exact issueLblAt_sound h
  rcases orElse_some h with h | h
  · rcases searchFrom_some h with ⟨s', h⟩
    exact issueLblAt_sound h
  · rcases searchFrom_some h with ⟨s', h⟩
    exact issue3At_sound h

/-! ## Claim C9 -/

/-- C9: for every input text, each of the six fields of the record returned
by `parse_kyc_details` is either the sentinel `"Not found"` or a non-empty
string; no field is ever the empty string. -/
theorem C9_fields_sentinel_or_nonempty (text : String) :
    ((parse_kyc_details text).name = notFound ∨
      (parse_kyc_details text).name ≠ "") ∧
    ((parse_kyc_details text).documentNumber = notFound ∨
      (parse_kyc_details text).documentNumber ≠ "") ∧
    ((parse_kyc_details text).dateOfBirth = notFound ∨
      (parse_kyc_details text).dateOfBirth ≠ "") ∧
    ((parse_kyc_details text).issueDate = notFound ∨
      (parse_kyc_details text).issueDate ≠ "") ∧
    ((parse_kyc_details text).address = notFound ∨
      (parse_kyc_details text).address ≠ "") ∧
    ((parse_kyc_details text).nationality = notFound ∨
      (parse_kyc_details text).nationality ≠ "") := by
  unfold parse_kyc_details
  split
  · exact ⟨Or.inl rfl, Or.inl rfl, Or.inl rfl, Or.inl rfl, Or.inl rfl,
      Or.inr (by decide)⟩
  · dsimp only
    refine ⟨?_, ?_, ?_, ?_, ?_, ?_⟩
    · rcases hn : nameField (text.data.map pyUpper) with _ | w
      · simp [hn]
      · simp only [hn]
        refine Or.inr ?_
        rcases nameField_some hn with ⟨ws, hlen, rfl⟩
        exact mk_ne_empty (joinWords_ne_nil hlen)
    · rcases hd : docField (text.data.map pyUpper) with _ | g
      · simp [hd]
      · simp only [hd]
        rcases docField_sound hd with ⟨hne, hns⟩
        exact Or.inr (stripped_mk_ne_empty hne hns)
    · rcases h1 : searchFrom dobAt (text.data.map pyUpper) with _ | yd
      · rcases h2 : searchPrev (dobNumAt 4 2 2) none text.data with _ | t1
        · rcases h3 : searchPrev (dobNumAt 2 2 4) none text.data with _ | t2
          · simp [h1, h2, h3]
          · obtain ⟨a, b, c⟩ := t2
            simp only [h1, h2, h3]
            refine Or.inr (mk_ne_empty ?_)
            simp
        · obtain ⟨a, b, c⟩ := t1
          simp only [h1, h2]
          refine Or.inr (mk_ne_empty ?_)
          simp
      · obtain ⟨y, m, dd⟩ := yd
        simp only [h1]
        refine Or.inr (mk_ne_empty ?_)
        simp
    · rcases hi : issueField (text.data.map pyUpper) with _ | g
      · simp [hi]
      · simp only [hi]
        rcases issueField_sound hi with ⟨hne, hns⟩
        exact Or.inr (stripped_mk_ne_empty hne hns)
    · rcases ha : addrField (text.data.map pyUpper) with _ | g
      · simp [ha]
      · simp only [ha]
        refine Or.inr (mk_ne_empty ?_)
        intro he
        exact absurd (List.append_eq_nil.mp he).1 (by decide)
    · split <;> exact Or.inr (by decide)

/-! ## Claim C2 -/

/-- C2 counterexample: the exact Scenario-B date text
`"YEAR: 1990 MONTH: JAN DAY: 15"` (which contains the structured triple as
written in the claim, with a colon after DAY) parses to Date Of Birth
`"Not found"`, not `"1990-JAN-15"`: the structured pattern only accepts an
optional period after DAY, so the colon form does not match, and no
fallback date pattern matches either. -/
theorem C2_counterexample :
    hasSubL "YEAR: 1990 MONTH: JAN DAY: 15".data
        "YEAR: 1990 MONTH: JAN DAY: 15".data = true ∧
    (parse_kyc_details "YEAR: 1990 MONTH: JAN DAY: 15").dateOfBirth =
      notFound ∧
    notFound ≠ "1990-JAN-15" := by
  decide

/-- C2 amended: for every input text passing the length gate on whose
upper-cased form the structured-triple pattern
`YEAR: nnnn MONTH: XXX DAY nn` (day separator an optional period or
whitespace, not a colon) matches with groups `(y, m, d)`,
`parse_kyc_details` renders Date Of Birth as `y-m-d`.  In particular
`"YEAR: 1990 MONTH: JAN DAY 15"` yields `"1990-JAN-15"`, while the
colon form `"DAY: 15"` is not matched by the structured pattern. -/
theorem C2_amended_structured_dob (text : String) (y m d : List Char)
    (hlen : (text = "" || (pyStripL text.data).length < 10) = false)
    (hm : searchFrom dobAt (text.data.map pyUpper) = some (y, m, d)) :
    (parse_kyc_details text).dateOfBirth =
      String.mk (y ++ '-' :: m ++ '-' :: d) := by
  unfold parse_kyc_details
  rw [hlen]
  simp [hm]

/-- Witness for C2 amended: the period-free day form parses to
`"1990-JAN-15"`. -/
theorem C2_amended_witness :
    (parse_kyc_details "YEAR: 1990 MONTH: JAN DAY 15").dateOfBirth =
      "1990-JAN-15" :=
  (C2_amended_structured_dob "YEAR: 1990 MONTH: JAN DAY 15"
    "1990".data "JAN".data "15".data (by decide) (by decide)).trans
    (by decide)

end KYC
